import Mathlib

/-!
Shallow embedding of the gtk-icon-cache reader (`src/lib.rs`).

The memory-mapped file is modelled as a `List Nat` of bytes.  A Rust
function returning `Option` is modelled with result `RRes.fail` for
`None`, and a Rust panic (out-of-bounds slice indexing, `unwrap` on a
missing key, `%` by zero) is modelled by `RRes.crash`.  `usize`
subtraction uses release-mode wraparound semantics (`wrapSub`); in debug
builds the same inputs abort via an overflow panic, so the `crash`/`fail`
classification below matches the observable release behaviour.  Strings
are modelled as byte lists; `String::from_utf8_lossy` keeps the byte
content unchanged for the ASCII data exercised here, and the name
comparison in `lookup` is modelled as byte-list equality.
-/

/-- Modulus of `u32` arithmetic. -/
def U32_MOD : Nat := 2 ^ 32

/-- Modulus of `usize` (64-bit) arithmetic. -/
def USIZE_MOD : Nat := 2 ^ 64

/-- Release-mode wrapping subtraction on `usize`. -/
def wrapSub (a b : Nat) : Nat :=
  if b ≤ a then a - b else (a + USIZE_MOD - b) % USIZE_MOD

/-- Result of running a piece of the Rust code: a value, a returned
`None`, or a panic. -/
inductive RRes (α : Type) where
  | ok (a : α) : RRes α
  | fail : RRes α
  | crash : RRes α
  deriving DecidableEq

/-- Monadic bind on `RRes`, modelling the `?` operator (which propagates
`None`) together with panic propagation. -/
def rbind {α β : Type} (x : RRes α) (f : α → RRes β) : RRes β :=
  match x with
  | .ok a => f a
  | .fail => .fail
  | .crash => .crash

/-- The cache value built by `load_cache` (struct `GtkIconCache` in the
source).  `dir_names` models the `HashMap<usize, String>`: an association
list where the most recent insertion is first. -/
structure GtkIconCache where
  hash_offset : Nat
  directory_list_offset : Nat
  n_buckets : Nat
  dir_names : List (Nat × List Nat)
  file_mmap : List Nat
  deriving DecidableEq

/-- `HashMap::get` on the association list: first (most recent) binding
for the key wins, as with `HashMap::insert` overwriting. -/
def lookupAssoc (l : List (Nat × List Nat)) (k : Nat) : Option (List Nat) :=
  match l with
  | [] => Option.none
  | p :: rest => if p.1 = k then some p.2 else lookupAssoc rest k

/-- Source `read_card16_from`: big-endian `u16` at `offset`, guarded by
`offset < self.file_mmap.len() - 2`. -/
def read_card16_from (m : List Nat) (offset : Nat) : RRes Nat :=
  if offset < wrapSub m.length 2 then
    match m.get? offset, m.get? (offset + 1) with
    | some b0, some b1 => .ok ((b0 <<< 8) ||| b1)
    | _, _ => .crash
  else .fail

/-- Source `read_card32_from`: big-endian `u32` at `offset`, guarded by
`offset > 0 && offset < self.file_mmap.len() - 4`. -/
def read_card32_from (m : List Nat) (offset : Nat) : RRes Nat :=
  if 0 < offset ∧ offset < wrapSub m.length 4 then
    match m.get? offset, m.get? (offset + 1), m.get? (offset + 2), m.get? (offset + 3) with
    | some b0, some b1, some b2, some b3 =>
      .ok ((b0 <<< 24) ||| (b1 <<< 16) ||| (b2 <<< 8) ||| b3)
    | _, _, _, _ => .crash
  else .fail

/-- The scanning loop of `read_cstring_from`: first index `t ≥ offset`
with `m[t] = 0`.  Running off the end of the buffer is an unchecked
index, i.e. a panic, reported as `Option.none` here. -/
def scanNul (m : List Nat) (t : Nat) : Option Nat :=
  match (m.drop t).findIdx? (fun b => b == 0) with
  | some j => some (t + j)
  | Option.none => Option.none

/-- Source `read_cstring_from`: scans for a NUL terminator with no bounds
check (panic when none exists), returns `None` for the empty string, else
the bytes `m[offset..terminate]`. -/
def read_cstring_from (m : List Nat) (offset : Nat) : RRes (List Nat) :=
  match scanNul m offset with
  | Option.none => .crash
  | some t => if t = offset then .fail else .ok ((m.drop offset).take (t - offset))

/-- One step of the fold inside `icon_name_hash`, on `Wrapping<u32>`:
`(r << 5) - r + c` with 32-bit wraparound. -/
def hashStep (r c : Nat) : Nat :=
  (((r <<< 5) % U32_MOD + U32_MOD - r) % U32_MOD + c % U32_MOD) % U32_MOD

/-- Source `icon_name_hash` over the byte sequence of the name. -/
def icon_name_hash (name : List Nat) : Nat :=
  name.foldl hashStep 0

/-- Modelled from the spec (section 4.3) for the refinement comparison:
`h0 = 0`, `h' = (h * 31 + c) mod 2^32`. -/
def hashSpec (name : List Nat) : Nat :=
  name.foldl (fun h c => (h * 31 + c) % U32_MOD) 0

/-- The directory-dumping loop of `load_cache`: for `i` in `0..n`, read
the entry offset (a failed read aborts the whole load through `?`), then
insert the decoded string, skipping the entry when the string read yields
`None`. The second `Nat` argument counts the remaining iterations. -/
def dumpDirs (m : List Nat) (dlo : Nat) : Nat → Nat → List (Nat × List Nat) →
    RRes (List (Nat × List Nat))
  | _, 0, acc => .ok acc
  | i, k + 1, acc =>
    rbind (read_card32_from m (dlo + 4 + 4 * i)) (fun off =>
      match read_cstring_from m off with
      | .ok s => dumpDirs m dlo (i + 1) k ((off, s) :: acc)
      | .fail => dumpDirs m dlo (i + 1) k acc
      | .crash => .crash)

/-- `HashSet::insert`: add the element unless already present.  The list
keeps first-insertion order; the arbitrary iteration order of the real
`HashSet` is modelled by the reordering parameter `ord` of `lookup`. -/
def insertSet (r : List Nat) (x : Nat) : List Nat :=
  if r.contains x then r else r ++ [x]

/-- The image-list loop of `lookup`: for `i` in `0..list_len`, read the
`u16` directory index at `lo + 4 + 8*i` and the `u32` directory offset at
`directory_list_offset + 4 + dir_index*4`; a failed read skips the
record, a panic propagates.  The second `Nat` argument counts the
remaining iterations. -/
def readDirOffsets (c : GtkIconCache) (lo : Nat) : Nat → Nat → List Nat → RRes (List Nat)
  | _, 0, r => .ok r
  | i, k + 1, r =>
    match read_card16_from c.file_mmap (lo + 4 + 8 * i) with
    | .crash => .crash
    | .fail => readDirOffsets c lo (i + 1) k r
    | .ok di =>
      match read_card32_from c.file_mmap (c.directory_list_offset + 4 + di * 4) with
      | .crash => .crash
      | .fail => readDirOffsets c lo (i + 1) k r
      | .ok off => readDirOffsets c lo (i + 1) k (insertSet r off)

/-- The final `r.iter().map(|x| dir_names.get(&x).unwrap()).collect()`:
a missing key makes `unwrap` panic. -/
def resolveDirs (dn : List (Nat × List Nat)) : List Nat → RRes (List (List Nat))
  | [] => .ok []
  | x :: xs =>
    match lookupAssoc dn x with
    | Option.none => .crash
    | some s =>
      match resolveDirs dn xs with
      | .ok r => .ok (s :: r)
      | .fail => .fail
      | .crash => .crash

/-- The match branch of `lookup`: read `list_offset` and `list_len`
(through `?`), collect the deduplicated directory offsets, then resolve
them against `dir_names`.  `ord` models the iteration order of the
`HashSet`. -/
def processMatch (c : GtkIconCache) (ord : List Nat → List Nat) (b : Nat) :
    RRes (List (List Nat)) :=
  rbind (read_card32_from c.file_mmap (b + 8)) (fun lo =>
  rbind (read_card32_from c.file_mmap lo) (fun len =>
  rbind (readDirOffsets c lo 0 len []) (fun r =>
  resolveDirs c.dir_names (ord r))))

/-- The `while let` chain traversal of `lookup`, with an explicit fuel;
`Option.none` means the fuel ran out (the Rust loop would still be
running, e.g. on a cyclic chain). -/
def chainWalk (c : GtkIconCache) (name : List Nat) (ord : List Nat → List Nat) :
    Nat → Nat → Option (RRes (List (List Nat)))
  | 0, _ => Option.none
  | fuel + 1, b =>
    match read_card32_from c.file_mmap (b + 4) with
    | .fail => some .fail
    | .crash => some .crash
    | .ok nameOff =>
      match read_cstring_from c.file_mmap nameOff with
      | .crash => some .crash
      | .ok s =>
        if s = name then some (processMatch c ord b)
        else
          match read_card32_from c.file_mmap b with
          | .fail => some .fail
          | .crash => some .crash
          | .ok b2 => chainWalk c name ord fuel b2
      | .fail =>
        match read_card32_from c.file_mmap b with
        | .fail => some .fail
        | .crash => some .crash
        | .ok b2 => chainWalk c name ord fuel b2

/-- Source `lookup`: hash the name, take the bucket (`%` by zero panics),
read the bucket head through `?`, then walk the chain.  The result
`RRes.fail` is the `None` ("not found") return of the source. -/
def lookup (c : GtkIconCache) (name : List Nat) (ord : List Nat → List Nat)
    (fuel : Nat) : Option (RRes (List (List Nat))) :=
  if c.n_buckets = 0 then some .crash
  else
    match read_card32_from c.file_mmap
        (c.hash_offset + 4 + (icon_name_hash name % c.n_buckets) * 4) with
    | .fail => some .fail
    | .crash => some .crash
    | .ok b => chainWalk c name ord fuel b

/-- Name-independent scan of a bucket chain: the list of node names the
traversal decodes, in order, when the walk terminates through a failed
read without panicking; `Option.none` when it panics or the fuel runs
out. -/
def chainScan (c : GtkIconCache) : Nat → Nat → Option (List (List Nat))
  | 0, _ => Option.none
  | fuel + 1, b =>
    match read_card32_from c.file_mmap (b + 4) with
    | .fail => some []
    | .crash => Option.none
    | .ok nameOff =>
      match read_cstring_from c.file_mmap nameOff with
      | .crash => Option.none
      | .ok s =>
        match read_card32_from c.file_mmap b with
        | .fail => some [s]
        | .crash => Option.none
        | .ok b2 => (chainScan c fuel b2).map (fun l => s :: l)
      | .fail =>
        match read_card32_from c.file_mmap b with
        | .fail => some []
        | .crash => Option.none
        | .ok b2 => chainScan c fuel b2

/-- Name-independent scan of the whole lookup for a given hash value:
the names stored in the chain of the hash's bucket (empty when the bucket
head read fails, i.e. the walk never starts). -/
def lookupScan (c : GtkIconCache) (h : Nat) (fuel : Nat) : Option (List (List Nat)) :=
  if c.n_buckets = 0 then Option.none
  else
    match read_card32_from c.file_mmap (c.hash_offset + 4 + (h % c.n_buckets) * 4) with
    | .fail => some []
    | .crash => Option.none
    | .ok b => chainScan c fuel b

/-- The pseudo-node the walker examines at `bucket_offset = 0`: its name
offset is the header word at byte 4.  `true` when inspecting it neither
panics nor matches `name`. -/
def noHeaderMatch (c : GtkIconCache) (name : List Nat) : Bool :=
  match read_card32_from c.file_mmap 4 with
  | .crash => false
  | .fail => true
  | .ok nameOff =>
    match read_cstring_from c.file_mmap nameOff with
    | .crash => false
    | .fail => true
    | .ok s => s != name

/-- Results equal up to reordering of a found directory list (the claims
compare lookup results as sets). -/
def permUpTo (r1 r2 : Option (RRes (List (List Nat)))) : Prop :=
  match r1, r2 with
  | some (RRes.ok l1), some (RRes.ok l2) => l1.Perm l2
  | a, b => a = b

/-- Source `load_cache`: header reads, version check, then the directory
table dump. -/
def load_cache (m : List Nat) : RRes GtkIconCache :=
  rbind (read_card16_from m 0) (fun major =>
  rbind (read_card16_from m 2) (fun minor =>
  rbind (read_card32_from m 4) (fun hashOff =>
  rbind (read_card32_from m 8) (fun dlo =>
  rbind (read_card32_from m hashOff) (fun nb =>
  if major ≠ 1 ∧ minor ≠ 0 then .fail
  else
    rbind (read_card32_from m dlo) (fun nd =>
    rbind (dumpDirs m dlo 0 nd []) (fun dn =>
    .ok { hash_offset := hashOff, directory_list_offset := dlo,
          n_buckets := nb, dir_names := dn, file_mmap := m })))))))

/-- A file whose header has `major_version = 2`, `minor_version = 0`, and
which is otherwise structurally valid (`hash_offset = 12`, `n_buckets =
1`, `directory_list_offset = 24` with zero directories). -/
def bufC1 : List Nat :=
  [0, 2, 0, 0, 0, 0, 0, 12, 0, 0, 0, 24, 0, 0, 0, 1,
   0, 0, 0, 0, 0, 0, 0, 0, 0, 0, 0, 0, 0, 0, 0, 0]

/-- The cache `load_cache` builds from `bufC1`. -/
def cacheC1 : GtkIconCache :=
  { hash_offset := 12, directory_list_offset := 24, n_buckets := 1,
    dir_names := [], file_mmap := bufC1 }

/-- A structurally valid file (`major = 1`, `n_buckets = 1`, no
directories) whose single bucket chain holds one node for the name `"a"`
(`[97]`); the node's image list has one record whose directory index
resolves to offset `0`, which is absent from the (empty) directory map. -/
def bufC3 : List Nat :=
  [0, 1, 0, 0, 0, 0, 0, 12, 0, 0, 0, 32, 0, 0, 0, 1,
   0, 0, 0, 20, 0, 0, 0, 0, 0, 0, 0, 40, 0, 0, 0, 44,
   0, 0, 0, 0, 0, 0, 0, 0, 97, 0, 0, 0, 0, 0, 0, 1,
   0, 0, 0, 0, 0, 0, 0, 0]

/-- The cache `load_cache` builds from `bufC3`. -/
def cacheC3 : GtkIconCache :=
  { hash_offset := 12, directory_list_offset := 32, n_buckets := 1,
    dir_names := [], file_mmap := bufC3 }

/-- A valid file with two directory entries: entry 0 points at offset 36
(a NUL byte, i.e. the empty string), entry 1 points at offset 33 (the
string `"a"`). -/
def bufC4a : List Nat :=
  [0, 1, 0, 0, 0, 0, 0, 12, 0, 0, 0, 20, 0, 0, 0, 1,
   0, 0, 0, 0, 0, 0, 0, 2, 0, 0, 0, 36, 0, 0, 0, 33,
   0, 97, 0, 0, 0, 0, 0, 0, 0]

/-- The cache `load_cache` builds from `bufC4a`: entry 0 was skipped,
entry 1 is present. -/
def cacheC4a : GtkIconCache :=
  { hash_offset := 12, directory_list_offset := 20, n_buckets := 1,
    dir_names := [(33, [97])], file_mmap := bufC4a }

/-- A file with a valid header claiming one directory entry, but too
short for the entry's `u32` offset read at byte 20. -/
def bufC4b : List Nat :=
  [0, 1, 0, 0, 0, 0, 0, 12, 0, 0, 0, 16, 0, 0, 0, 1,
   0, 0, 0, 1, 0]

/-- A valid file with one bucket whose head slot reads as `0` and an
empty chain: ideal for exercising the "not found" path. -/
def bufC7w : List Nat :=
  [0, 1, 0, 0, 0, 0, 0, 12, 0, 0, 0, 24, 0, 0, 0, 1,
   0, 0, 0, 0, 0, 0, 0, 0, 0, 0, 0, 0, 0, 0, 0, 0]

/-- The cache `load_cache` builds from `bufC7w`. -/
def cacheC7w : GtkIconCache :=
  { hash_offset := 12, directory_list_offset := 24, n_buckets := 1,
    dir_names := [], file_mmap := bufC7w }

/-- A valid file with `n_buckets = 2^24` (first byte of the count is 1):
the bucket slot of the name `[1]` holds `0`, yet the walker, treating
offset `0` as a node, reads its name offset from header byte 4 (value 12)
and finds the bytes of the bucket count there, which equal the query
name, so the lookup reports a match. -/
def bufC9 : List Nat :=
  [0, 1, 0, 0, 0, 0, 0, 12, 0, 0, 0, 24, 1, 0, 0, 0,
   0, 0, 0, 0, 0, 0, 0, 0, 0, 0, 0, 0, 0, 0, 0, 0]

/-- The cache `load_cache` builds from `bufC9`. -/
def cacheC9 : GtkIconCache :=
  { hash_offset := 12, directory_list_offset := 24, n_buckets := 16777216,
    dir_names := [], file_mmap := bufC9 }

/-- A valid file whose stored bucket count is `0`. -/
def bufC10 : List Nat :=
  [0, 1, 0, 0, 0, 0, 0, 12, 0, 0, 0, 20, 0, 0, 0, 0,
   0, 0, 0, 0, 0, 0, 0, 0, 0, 0, 0, 0]

/-- The cache `load_cache` builds from `bufC10`. -/
def cacheC10 : GtkIconCache :=
  { hash_offset := 12, directory_list_offset := 20, n_buckets := 0,
    dir_names := [], file_mmap := bufC10 }

theorem read_card32_zero (m : List Nat) : read_card32_from m 0 = RRes.fail := by
  unfold read_card32_from
  simp

theorem hashStep_eq (r c : Nat) (h : r < U32_MOD) :
    hashStep r c = (r * 31 + c) % U32_MOD := by
  unfold hashStep
  rw [Nat.shiftLeft_eq, show (2 : Nat) ^ 5 = 32 from rfl]
  have h1 : r * 32 % U32_MOD + U32_MOD - r = r * 32 % U32_MOD + (U32_MOD - r) := by
    omega
  rw [h1, Nat.mod_add_mod, Nat.add_assoc, Nat.mod_add_mod]
  have h2 : r * 32 + (U32_MOD - r + c % U32_MOD) = r * 31 + c % U32_MOD + U32_MOD := by
    omega
  rw [h2, Nat.add_mod_right, Nat.add_mod_mod]

theorem foldl_hashStep_eq (l : List Nat) :
    ∀ r, r < U32_MOD →
      l.foldl hashStep r = l.foldl (fun h c => (h * 31 + c) % U32_MOD) r := by
  induction l with
  | nil => intro r _; rfl
  | cons c cs ih =>
    intro r hr
    simp only [List.foldl_cons]
    rw [hashStep_eq r c hr]
    exact ih _ (Nat.mod_lt _ (by decide))

theorem card16_ok_iff (m : List Nat) (o : Nat) :
    (∃ v, read_card16_from m o = RRes.ok v) ↔ o + 3 ≤ m.length := by
  constructor
  · rintro ⟨v, hv⟩
    unfold read_card16_from at hv
    by_cases hc : o < wrapSub m.length 2
    · rw [if_pos hc] at hv
      rcases h1 : m.get? o with _ | b0 <;> rcases h2 : m.get? (o + 1) with _ | b1 <;>
        rw [h1, h2] at hv <;> simp at hv
      obtain ⟨hlt, -⟩ := List.get?_eq_some.mp h2
      have hws : wrapSub m.length 2 = m.length - 2 := by
        unfold wrapSub; rw [if_pos (by omega)]
      rw [hws] at hc
      omega
    · rw [if_neg hc] at hv; simp at hv
  · intro h
    have hc : o < wrapSub m.length 2 := by
      unfold wrapSub; rw [if_pos (by omega)]; omega
    unfold read_card16_from
    rw [if_pos hc, List.get?_eq_get (show o < m.length by omega),
      List.get?_eq_get (show o + 1 < m.length by omega)]
    exact ⟨_, rfl⟩

theorem card32_ok_iff (m : List Nat) (o : Nat) :
    (∃ v, read_card32_from m o = RRes.ok v) ↔ 1 ≤ o ∧ o + 5 ≤ m.length := by
  constructor
  · rintro ⟨v, hv⟩
    unfold read_card32_from at hv
    by_cases hc : 0 < o ∧ o < wrapSub m.length 4
    · rw [if_pos hc] at hv
      rcases h1 : m.get? o with _ | b0 <;> rcases h2 : m.get? (o + 1) with _ | b1 <;>
        rcases h3 : m.get? (o + 2) with _ | b2 <;> rcases h4 : m.get? (o + 3) with _ | b3 <;>
        rw [h1, h2, h3, h4] at hv <;> simp at hv
      obtain ⟨hlt, -⟩ := List.get?_eq_some.mp h4
      have hws : wrapSub m.length 4 = m.length - 4 := by
        unfold wrapSub; rw [if_pos (by omega)]
      rw [hws] at hc
      omega
    · rw [if_neg hc] at hv; simp at hv
  · rintro ⟨ho, h⟩
    have hc : 0 < o ∧ o < wrapSub m.length 4 := by
      constructor
      · omega
      · unfold wrapSub; rw [if_pos (by omega)]; omega
    unfold read_card32_from
    rw [if_pos hc, List.get?_eq_get (show o < m.length by omega),
      List.get?_eq_get (show o + 1 < m.length by omega),
      List.get?_eq_get (show o + 2 < m.length by omega),
      List.get?_eq_get (show o + 3 < m.length by omega)]
    exact ⟨_, rfl⟩

theorem chainScan_notFound (c : GtkIconCache) (name : List Nat)
    (ord : List Nat → List Nat) :
    ∀ (fuel b : Nat) (names : List (List Nat)),
      chainScan c fuel b = some names → name ∉ names →
      chainWalk c name ord fuel b = some RRes.fail := by
  intro fuel
  induction fuel with
  | zero => intro b names h _; simp [chainScan] at h
  | succ fuel ih =>
    intro b names h hmem
    rw [chainScan] at h
    cases h4 : read_card32_from c.file_mmap (b + 4) with
    | fail => simp only [chainWalk, h4]
    | crash =>
      simp only [h4] at h
      exact Option.noConfusion h
    | ok nameOff =>
      simp only [h4] at h
      cases hs : read_cstring_from c.file_mmap nameOff with
      | crash =>
        simp only [hs] at h
        exact Option.noConfusion h
      | fail =>
        simp only [hs] at h
        cases hn : read_card32_from c.file_mmap b with
        | fail => simp only [chainWalk, h4, hs, hn]
        | crash =>
          simp only [hn] at h
          exact Option.noConfusion h
        | ok b2 =>
          simp only [hn] at h
          simp only [chainWalk, h4, hs, hn]
          exact ih b2 names h hmem
      | ok s =>
        simp only [hs] at h
        cases hn : read_card32_from c.file_mmap b with
        | fail =>
          simp only [hn] at h
          injection h with h
          subst h
          have hne : s ≠ name := fun e => hmem (by simp [e])
          simp only [chainWalk, h4, hs, if_neg hne, hn]
        | crash =>
          simp only [hn] at h
          exact Option.noConfusion h
        | ok b2 =>
          simp only [hn] at h
          rcases hsc : chainScan c fuel b2 with _ | l
          · rw [hsc] at h
            simp at h
          · rw [hsc] at h
            have hnames : s :: l = names := by simpa using h
            subst hnames
            have hne : s ≠ name := fun e => hmem (by simp [e])
            simp only [chainWalk, h4, hs, if_neg hne, hn]
            exact ih b2 l hsc (fun hl => hmem (List.mem_cons_of_mem s hl))

theorem permUpTo_refl (r : Option (RRes (List (List Nat)))) : permUpTo r r := by
  unfold permUpTo
  split
  next => exact List.Perm.refl _
  next => rfl

theorem resolveDirs_all_some (dn : List (Nat × List Nat)) :
    ∀ l : List Nat, (∀ x ∈ l, (lookupAssoc dn x).isSome) →
      resolveDirs dn l = RRes.ok (l.map (fun x => (lookupAssoc dn x).getD [])) := by
  intro l
  induction l with
  | nil => intro _; rfl
  | cons x xs ih =>
    intro h
    have hx := h x (List.mem_cons_self x xs)
    rcases hopt : lookupAssoc dn x with _ | s
    · rw [hopt] at hx; simp at hx
    · rw [resolveDirs]
      simp only [hopt, ih (fun y hy => h y (List.mem_cons_of_mem x hy)), List.map_cons]
      simp [hopt]

theorem resolveDirs_missing (dn : List (Nat × List Nat)) :
    ∀ l : List Nat, (∃ x ∈ l, lookupAssoc dn x = Option.none) →
      resolveDirs dn l = RRes.crash := by
  intro l
  induction l with
  | nil => rintro ⟨x, hx, -⟩; simp at hx
  | cons y ys ih =>
    rintro ⟨x, hx, hnone⟩
    rw [resolveDirs]
    rcases hopt : lookupAssoc dn y with _ | s
    · rfl
    · have hxys : x ∈ ys := by
        rcases List.mem_cons.mp hx with he | hm
        · subst he; rw [hopt] at hnone; exact Option.noConfusion hnone
        · exact hm
      rw [ih ⟨x, hxys, hnone⟩]

theorem resolveDirs_perm (dn : List (Nat × List Nat)) {l1 l2 : List Nat}
    (hp : l1.Perm l2) :
    permUpTo (some (resolveDirs dn l1)) (some (resolveDirs dn l2)) := by
  by_cases hall : ∀ x ∈ l1, (lookupAssoc dn x).isSome
  · have hall2 : ∀ x ∈ l2, (lookupAssoc dn x).isSome := fun x hx =>
      hall x (hp.mem_iff.mpr hx)
    rw [resolveDirs_all_some dn l1 hall, resolveDirs_all_some dn l2 hall2]
    exact hp.map _
  · push_neg at hall
    obtain ⟨x, hx, hnone⟩ := hall
    have hnone2 : lookupAssoc dn x = Option.none :=
      Option.not_isSome_iff_eq_none.mp hnone
    rw [resolveDirs_missing dn l1 ⟨x, hx, hnone2⟩,
      resolveDirs_missing dn l2 ⟨x, hp.mem_iff.mp hx, hnone2⟩]
    rfl

theorem chainWalk_perm (c : GtkIconCache) (name : List Nat)
    (ord1 ord2 : List Nat → List Nat)
    (h1 : ∀ l, (ord1 l).Perm l) (h2 : ∀ l, (ord2 l).Perm l) :
    ∀ fuel b, permUpTo (chainWalk c name ord1 fuel b) (chainWalk c name ord2 fuel b) := by
  intro fuel
  induction fuel with
  | zero => intro b; exact permUpTo_refl _
  | succ fuel ih =>
    intro b
    cases h4 : read_card32_from c.file_mmap (b + 4) with
    | fail => simp only [chainWalk, h4]; exact permUpTo_refl _
    | crash => simp only [chainWalk, h4]; exact permUpTo_refl _
    | ok nameOff =>
      cases hs : read_cstring_from c.file_mmap nameOff with
      | crash => simp only [chainWalk, h4, hs]; exact permUpTo_refl _
      | fail =>
        cases hn : read_card32_from c.file_mmap b with
        | fail => simp only [chainWalk, h4, hs, hn]; exact permUpTo_refl _
        | crash => simp only [chainWalk, h4, hs, hn]; exact permUpTo_refl _
        | ok b2 => simp only [chainWalk, h4, hs, hn]; exact ih b2
      | ok s =>
        by_cases hsn : s = name
        · cases hlo : read_card32_from c.file_mmap (b + 8) with
          | fail =>
            simp only [chainWalk, h4, hs, if_pos hsn, processMatch, hlo, rbind]
            exact permUpTo_refl _
          | crash =>
            simp only [chainWalk, h4, hs, if_pos hsn, processMatch, hlo, rbind]
            exact permUpTo_refl _
          | ok lo =>
            cases hlen : read_card32_from c.file_mmap lo with
            | fail =>
              simp only [chainWalk, h4, hs, if_pos hsn, processMatch, hlo, hlen, rbind]
              exact permUpTo_refl _
            | crash =>
              simp only [chainWalk, h4, hs, if_pos hsn, processMatch, hlo, hlen, rbind]
              exact permUpTo_refl _
            | ok len =>
              cases hrd : readDirOffsets c lo 0 len [] with
              | fail =>
                simp only [chainWalk, h4, hs, if_pos hsn, processMatch, hlo, hlen,
                  hrd, rbind]
                exact permUpTo_refl _
              | crash =>
                simp only [chainWalk, h4, hs, if_pos hsn, processMatch, hlo, hlen,
                  hrd, rbind]
                exact permUpTo_refl _
              | ok r =>
                simp only [chainWalk, h4, hs, if_pos hsn, processMatch, hlo, hlen,
                  hrd, rbind]
                exact resolveDirs_perm c.dir_names ((h1 r).trans (h2 r).symm)
        · cases hn : read_card32_from c.file_mmap b with
          | fail => simp only [chainWalk, h4, hs, if_neg hsn, hn]; exact permUpTo_refl _
          | crash => simp only [chainWalk, h4, hs, if_neg hsn, hn]; exact permUpTo_refl _
          | ok b2 => simp only [chainWalk, h4, hs, if_neg hsn, hn]; exact ih b2

/-- C1: the claim says any `major_version ≠ 1` makes loading fail, but the
source checks `major_version != 1 && minor_version != 0`, so a file with
`major_version = 2` and `minor_version = 0` loads successfully: the
version check is a De Morgan slip and the code contradicts the documented
contract.  This theorem evaluates the code at the failing input. -/
theorem C1_major_version_not_enforced :
    read_card16_from bufC1 0 = RRes.ok 2 ∧ read_card16_from bufC1 2 = RRes.ok 0 ∧
    load_cache bufC1 = RRes.ok cacheC1 := by decide

/-- C2: the claim says every accessor returns a failure indicator for
out-of-range offsets and never panics, but `read_cstring_from` scans for
the NUL terminator with an unchecked index and panics when the offset is
past the buffer (or no NUL follows), and the 2-byte read's `len - 2`
bound underflows on a buffer shorter than 2 bytes, after which the
unchecked index panics.  This theorem evaluates the code at two such
failing inputs. -/
theorem C2_accessor_out_of_bounds_panics :
    read_cstring_from [0, 0, 0] 5 = RRes.crash ∧
    read_card16_from [0] 3 = RRes.crash := by decide

/-- C3: the claim says an image-list record whose resolved directory
offset is absent from the directory map is dropped; the source instead
calls `dir_names.get(&x).unwrap()`, which panics on the missing key.
`bufC3` loads with an empty directory map, yet its single chain node for
the name `"a"` has an image-list record resolving to offset 0, so the
lookup panics instead of dropping the record. -/
theorem C3_missing_directory_unwrap_panics :
    load_cache bufC3 = RRes.ok cacheC3 ∧
    lookup cacheC3 [97] id 2 = some RRes.crash := by decide

/-- C4 counterexample: in `bufC4b` the single directory entry's `u32`
offset read at byte 20 is out of bounds; the claim says only that entry
is skipped and the load still succeeds, but the `?` operator makes the
whole load fail. -/
theorem C4_entry_offset_read_aborts_load :
    read_card32_from bufC4b (16 + 4 + 4 * 0) = RRes.fail ∧
    load_cache bufC4b = RRes.fail := by decide

/-- C4 (amended): only a directory entry whose string decode returns no
string (a NUL right at the offset) is skipped with the load continuing
unchanged; a failed `u32` offset read for an entry aborts the whole
directory pass (and hence the load).  Demonstrated end to end by
`bufC4a` (entry 0 skipped, load succeeds with entry 1 present) and
`bufC4b` (whole load fails). -/
theorem C4_directory_entry_failures :
    (∀ (m : List Nat) (dlo i k : Nat) (acc : List (Nat × List Nat)) (off : Nat),
      read_card32_from m (dlo + 4 + 4 * i) = RRes.ok off →
      read_cstring_from m off = RRes.fail →
      dumpDirs m dlo i (k + 1) acc = dumpDirs m dlo (i + 1) k acc) ∧
    (∀ (m : List Nat) (dlo i k : Nat) (acc : List (Nat × List Nat)),
      read_card32_from m (dlo + 4 + 4 * i) = RRes.fail →
      dumpDirs m dlo i (k + 1) acc = RRes.fail) ∧
    load_cache bufC4a = RRes.ok cacheC4a ∧
    load_cache bufC4b = RRes.fail := by
  refine ⟨?_, ?_, by decide, by decide⟩
  · intro m dlo i k acc off hoff hstr
    rw [dumpDirs]
    simp only [hoff, rbind, hstr]
  · intro m dlo i k acc hoff
    rw [dumpDirs]
    simp only [hoff, rbind]

/-- Witness for the amended C4: the skip equation and the abort equation
applied at the concrete buffers. -/
theorem C4_directory_entry_failures_w :
    dumpDirs bufC4a 20 0 (1 + 1) [] = dumpDirs bufC4a 20 (0 + 1) 1 [] ∧
    dumpDirs bufC4b 16 0 (0 + 1) [] = RRes.fail :=
  ⟨C4_directory_entry_failures.1 bufC4a 20 0 1 [] 36 (by decide) (by decide),
   C4_directory_entry_failures.2.1 bufC4b 16 0 0 [] (by decide)⟩

/-- C5: the implemented hash equals the reference definition
`h' = (h * 31 + c) mod 2^32` starting from 0, and it takes the two
documented values on `"deepin-deb-installer"` and `"web-browser"`
(given as their ASCII byte sequences). -/
theorem C5_hash_matches_reference :
    (∀ name : List Nat, icon_name_hash name = hashSpec name) ∧
    icon_name_hash [100, 101, 101, 112, 105, 110, 45, 100, 101, 98, 45, 105,
      110, 115, 116, 97, 108, 108, 101, 114] = 1927089920 ∧
    icon_name_hash [119, 101, 98, 45, 98, 114, 111, 119, 115, 101, 114] =
      2769241519 :=
  ⟨fun name => foldl_hashStep_eq name 0 (by decide), by decide, by decide⟩

/-- C6 counterexample: the claim's bounds are off by one.  On a 4-byte
buffer the 2-byte read at offset 2 satisfies the claim's `o + 2 ≤ L` yet
fails, and on a 6-byte buffer the 4-byte read at offset 2 satisfies the
claim's `o > 0 ∧ o + 4 ≤ L` yet fails. -/
theorem C6_claimed_bounds_off_by_one :
    (2 + 2 ≤ List.length ([0, 0, 0, 0] : List Nat) ∧
      read_card16_from [0, 0, 0, 0] 2 = RRes.fail) ∧
    (0 < 2 ∧ 2 + 4 ≤ List.length ([0, 0, 0, 0, 0, 0] : List Nat) ∧
      read_card32_from [0, 0, 0, 0, 0, 0] 2 = RRes.fail) := by decide

/-- C6 (amended): the strict `<` guards make the reads reject the last
admissible offsets: the 2-byte read succeeds exactly when `o + 3 ≤ L`
(i.e. `o < L - 2`), and the 4-byte read succeeds exactly when `o > 0`
and `o + 5 ≤ L` (i.e. `o < L - 4`); otherwise the read does not produce
a value. -/
theorem C6_fixed_read_success_bounds :
    ∀ (m : List Nat) (o : Nat),
      ((∃ v, read_card16_from m o = RRes.ok v) ↔ o + 3 ≤ m.length) ∧
      ((∃ v, read_card32_from m o = RRes.ok v) ↔ 1 ≤ o ∧ o + 5 ≤ m.length) :=
  fun m o => ⟨card16_ok_iff m o, card32_ok_iff m o⟩

/-- C7: on a cache whose relevant bucket chain terminates cleanly (the
name-independent scan returns the list of stored names) and stores no
node named like the query, `lookup` returns the source's `None`
("not found") and no error. -/
theorem C7_absent_name_not_found (c : GtkIconCache) (name : List Nat)
    (ord : List Nat → List Nat) (fuel : Nat) (names : List (List Nat))
    (hscan : lookupScan c (icon_name_hash name) fuel = some names)
    (hmem : name ∉ names) :
    lookup c name ord fuel = some RRes.fail := by
  unfold lookupScan at hscan
  by_cases hb : c.n_buckets = 0
  · rw [if_pos hb] at hscan
    exact Option.noConfusion hscan
  · rw [if_neg hb] at hscan
    cases hslot : read_card32_from c.file_mmap
        (c.hash_offset + 4 + (icon_name_hash name % c.n_buckets) * 4) with
    | fail => simp only [lookup, if_neg hb, hslot]
    | crash =>
      simp only [hslot] at hscan
      exact Option.noConfusion hscan
    | ok b =>
      simp only [hslot] at hscan
      simp only [lookup, if_neg hb, hslot]
      exact chainScan_notFound c name ord fuel b names hscan hmem

/-- Witness for C7: on the loaded cache of `bufC7w` the chain of the
bucket of `"a"` is empty, and the lookup reports "not found". -/
theorem C7_absent_name_not_found_w :
    lookup cacheC7w [97] id 2 = some RRes.fail :=
  C7_absent_name_not_found cacheC7w [97] id 2 [] (by decide) (by decide)

/-- C8: lookup on an unmodified cache is deterministic up to the
iteration order of the result `HashSet`: two runs under any two orders
return results equal as sets (permutations of one another), or the
identical non-found/panic outcome. -/
theorem C8_lookup_deterministic (c : GtkIconCache) (name : List Nat)
    (ord1 ord2 : List Nat → List Nat) (fuel : Nat)
    (h1 : ∀ l, (ord1 l).Perm l) (h2 : ∀ l, (ord2 l).Perm l) :
    permUpTo (lookup c name ord1 fuel) (lookup c name ord2 fuel) := by
  by_cases hb : c.n_buckets = 0
  · simp only [lookup, if_pos hb]
    exact permUpTo_refl _
  · cases hslot : read_card32_from c.file_mmap
        (c.hash_offset + 4 + (icon_name_hash name % c.n_buckets) * 4) with
    | fail => simp only [lookup, if_neg hb, hslot]; exact permUpTo_refl _
    | crash => simp only [lookup, if_neg hb, hslot]; exact permUpTo_refl _
    | ok b =>
      simp only [lookup, if_neg hb, hslot]
      exact chainWalk_perm c name ord1 ord2 h1 h2 fuel b

/-- Witness for C8 at a concrete cache and name with the identity
iteration order on both sides. -/
theorem C8_lookup_deterministic_w :
    permUpTo (lookup cacheC7w [97] id 2) (lookup cacheC7w [97] id 2) :=
  C8_lookup_deterministic cacheC7w [97] id id 2
    (fun l => List.Perm.refl l) (fun l => List.Perm.refl l)

/-- C9 counterexample: a bucket-head slot equal to 0 does not make lookup
return not-found immediately.  On the loaded `bufC9` the slot of the
bucket of the name `[1]` holds 0, yet the walker treats offset 0 as a
node whose name offset is the header word at byte 4, finds the bucket
count's bytes there, matches the query and returns a successful (empty)
result instead of "not found". -/
theorem C9_zero_slot_not_a_terminator :
    load_cache bufC9 = RRes.ok cacheC9 ∧
    read_card32_from bufC9 (12 + 4 + 1 * 4) = RRes.ok 0 ∧
    lookup cacheC9 [1] id 2 = some (RRes.ok []) := by decide

/-- C9 (amended): a 4-byte read at offset 0 always fails, so a stored
offset of 0 ends the chain after at most one further node inspection:
the walker first treats offset 0 as a node whose fields come from the
file header (name offset read at byte 4), and only if that inspection
neither panics nor matches the query does the advance read at offset 0
fail and the lookup return not-found. -/
theorem C9_zero_offset_terminator :
    (∀ m : List Nat, read_card32_from m 0 = RRes.fail) ∧
    (∀ (c : GtkIconCache) (name : List Nat) (ord : List Nat → List Nat) (fuel : Nat),
      noHeaderMatch c name = true →
      chainWalk c name ord (fuel + 1) 0 = some RRes.fail) := by
  constructor
  · exact read_card32_zero
  · intro c name ord fuel h
    unfold noHeaderMatch at h
    cases h4 : read_card32_from c.file_mmap 4 with
    | fail => simp only [chainWalk, Nat.zero_add, h4]
    | crash =>
      simp only [h4] at h
      exact Bool.noConfusion h
    | ok nameOff =>
      simp only [h4] at h
      cases hs : read_cstring_from c.file_mmap nameOff with
      | crash =>
        simp only [hs] at h
        exact Bool.noConfusion h
      | fail => simp only [chainWalk, Nat.zero_add, h4, hs, read_card32_zero]
      | ok s =>
        simp only [hs] at h
        have hne : s ≠ name := by simpa using h
        simp only [chainWalk, Nat.zero_add, h4, hs, if_neg hne, read_card32_zero]

/-- Witness for the amended C9: on the loaded cache of `bufC7w` the
pseudo-node at offset 0 does not match `"a"`, and the walk from
`bucket_offset = 0` ends not-found. -/
theorem C9_zero_offset_terminator_w :
    chainWalk cacheC7w [97] id (1 + 1) 0 = some RRes.fail :=
  C9_zero_offset_terminator.2 cacheC7w [97] id 1 (by decide)

/-- C10: load performs no validation of the bucket count: `bufC10` loads
successfully with a stored bucket count of 0, and on the resulting cache
every lookup hits the unguarded `hash % n_buckets` with a zero divisor
and panics, so lookup is not total for such a cache. -/
theorem C10_zero_bucket_count_accepted :
    load_cache bufC10 = RRes.ok cacheC10 ∧ cacheC10.n_buckets = 0 ∧
    ∀ (name : List Nat) (ord : List Nat → List Nat) (fuel : Nat),
      lookup cacheC10 name ord fuel = some RRes.crash :=
  ⟨by decide, by decide, fun _ _ _ => rfl⟩
